import Mathlib

/-!
# Verification of the `easy_time` calendar-offset engine

Shallow embedding of the month/year offset logic of `src/src/lib.rs`
(`is_leap_year`, `days_in_month`, `add_months`, `add_years`,
`build_datetime_from_naive`, the `*_from_now` / `*_ago` wrappers and the
`apply_time_unit_forward` / `apply_time_unit_backward` dispatchers).

Modelling conventions:
* `chrono::NaiveDateTime` is a record of calendar fields plus an opaque
  time-of-day (`tod`, seconds since midnight); the engine never inspects
  `tod`, it only carries it through, so its unit is irrelevant.
* A `chrono::TimeZone` is a `Zone` capability: `naiveLocal` (the
  `DateTime::naive_local` projection) and `fromLocalDatetime`
  (`TimeZone::from_local_datetime`, returning a `LocalResult`).  Per the
  chrono convention, `LocalResult.ambiguous a b` carries the candidates
  ordered as (earliest, latest).
* Rust computations that can terminate the process are modelled with
  `RunResult`: `.ok v` is a normal return, `.panicked` is a process abort
  (from an array index out of bounds, an `expect` on `from_ymd_opt`, or
  the explicit abort in `build_datetime_from_naive`).  Distinct aborts are
  not distinguished: none of them returns a value to the caller.
* Machine integers (`i32`, `i64`, `u32`) are embedded as `Int`/`Nat`.
  The one truncating conversion the source performs, `value as i32` in
  the `*_from_now` / `*_ago` wrappers, is modelled exactly by `toI32`
  (two's-complement wrap modulo 2^32).  Inside `add_months` the i32 sum
  `year * 12 + (month - 1) + months` is embedded as exact `Int`
  arithmetic: chrono years satisfy `|year| ≤ 262144`, so the sum can
  leave the i32 range only when `|months|` is within 3 145 740 of 2^31,
  and in every such case both the real code (overflow abort in debug
  builds, a wrapped sum driving `from_ymd_opt` out of range in release
  builds) and the exact model end in an abort, so the `RunResult`-level
  behaviour agrees.
-/

namespace EasyTime

/-- chrono `NaiveDateTime`: the wall-clock fields the engine reads
(`year()`, `month()`, `day()`) plus the opaque time-of-day carried by
`NaiveDateTime::time()` / `NaiveDate::and_time`. -/
structure NaiveDateTime where
  year : Int
  month : Int
  day : Nat
  tod : Nat
deriving DecidableEq, Repr

/-- chrono `LocalResult` (the result of `TimeZone::from_local_datetime`).
`ambiguous a b` carries `(earliest, latest)`, chrono's documented order;
`localNone` is chrono's `LocalResult::None`. -/
inductive LocalResult (α : Type) where
  | single : α → LocalResult α
  | ambiguous : α → α → LocalResult α
  | localNone : LocalResult α
deriving DecidableEq, Repr

/-- Outcome of a Rust computation that can abort the process: `.ok v` is a
normal return, `.panicked` a process abort (no value reaches the caller). -/
inductive RunResult (α : Type) where
  | ok : α → RunResult α
  | panicked : RunResult α
deriving DecidableEq, Repr

/-- The `chrono::TimeZone` capability used by the engine: project a zoned
date-time to its local wall-clock fields, and resolve a naive local
date-time back into the zone. -/
structure Zone (DT : Type) where
  fromLocalDatetime : NaiveDateTime → LocalResult DT
  naiveLocal : DT → NaiveDateTime

/-- `const DAYS_IN_MONTH: [u32; 12]` from the source (non-leap year). -/
def DAYS_IN_MONTH : List Nat := [31, 28, 31, 30, 31, 30, 31, 31, 30, 31, 30, 31]

/-- `is_leap_year` from the source.  Rust `%` on `i32` is the truncating
remainder; comparing it with 0 tests divisibility, exactly as comparing
the Euclidean `%` of `Int` with 0 does. -/
def is_leap_year (year : Int) : Bool :=
  (year % 4 == 0 && year % 100 != 0) || (year % 400 == 0)

/-- `days_in_month` from the source.  The array access
`DAYS_IN_MONTH[(month - 1) as usize]` aborts for `month` outside 1..=12
(for `month = 0` via `u32` underflow, otherwise an index out of bounds);
the `month ≤ 0` guard plus the out-of-range `none` of `getElem?` model
that abort, which the `none` branches of the callers turn into
`RunResult.panicked`. -/
def days_in_month (year month : Int) : Option Nat :=
  if month == 2 && is_leap_year year then some 29
  else if month ≤ 0 then none
  else DAYS_IN_MONTH[month.toNat - 1]?

/-- Years representable by `chrono::NaiveDate` (chrono `MIN_YEAR`). -/
def MIN_YEAR : Int := -262144

/-- Years representable by `chrono::NaiveDate` (chrono `MAX_YEAR`). -/
def MAX_YEAR : Int := 262143

/-- The calendar-date fields validated by `chrono::NaiveDate::from_ymd_opt`. -/
structure NaiveDate where
  year : Int
  month : Int
  day : Nat
deriving DecidableEq, Repr

/-- Modelled from chrono (the external civil-calendar collaborator of the
spec): `NaiveDate::from_ymd_opt` returns `Some` exactly when the year is
in chrono's representable range, the month is 1..=12 and the day is
1..=(length of that month). -/
def from_ymd_opt (year month : Int) (day : Nat) : Option NaiveDate :=
  match days_in_month year month with
  | some dim =>
      if MIN_YEAR ≤ year ∧ year ≤ MAX_YEAR ∧ 1 ≤ day ∧ day ≤ dim then
        some ⟨year, month, day⟩
      else none
  | none => none

/-- chrono `NaiveDate::and_time`: attach the time-of-day. -/
def NaiveDate.and_time (d : NaiveDate) (tod : Nat) : NaiveDateTime :=
  ⟨d.year, d.month, d.day, tod⟩

/-- `build_datetime_from_naive` from the source: first candidate on an
ambiguous resolution, process abort
(message "Invalid or non-existent local time.") on `LocalResult::None`. -/
def build_datetime_from_naive {DT : Type} (z : Zone DT) (naive : NaiveDateTime) :
    RunResult DT :=
  match z.fromLocalDatetime naive with
  | .single dt => .ok dt
  | .ambiguous a _b => .ok a
  | .localNone => .panicked

/-- `add_months` from the source.  `self` is split into the `Zone`
capability and the `time_now` field it is invoked on; `months` is the
`i32` parameter.  The first `none` branch models the (unreachable) array
abort inside `days_in_month`, the second the
`expect("Invalid date after adding months")`. -/
def add_months {DT : Type} (z : Zone DT) (time_now : DT) (months : Int) :
    RunResult DT :=
  let naive := z.naiveLocal time_now
  let year := naive.year
  let month := naive.month
  let day := naive.day
  let total_months := year * 12 + (month - 1) + months
  let target_year := total_months / 12
  let target_month := total_months % 12 + 1
  match days_in_month target_year target_month with
  | none => .panicked
  | some days_in_target =>
      let target_day := min day days_in_target
      match from_ymd_opt target_year target_month target_day with
      | none => .panicked
      | some target_date => build_datetime_from_naive z (target_date.and_time naive.tod)

/-- `add_years` from the source; `years` is the `i32` parameter.  The
`none` branches model the array abort and the
`expect("Invalid date after adding years")`. -/
def add_years {DT : Type} (z : Zone DT) (time_now : DT) (years : Int) :
    RunResult DT :=
  let naive := z.naiveLocal time_now
  let year := naive.year + years
  let month := naive.month
  let day := naive.day
  match days_in_month year month with
  | none => .panicked
  | some days_in_target =>
      let target_day := min day days_in_target
      match from_ymd_opt year month target_day with
      | none => .panicked
      | some target_date => build_datetime_from_naive z (target_date.and_time naive.tod)

/-- Rust `value as i32` on an `i64`: two's-complement truncation to 32
bits. -/
def toI32 (v : Int) : Int := (v + 2147483648) % 4294967296 - 2147483648

/-- `months_from_now`: `self.add_months(self.value as i32)`. -/
def months_from_now {DT : Type} (z : Zone DT) (value : Int) (time_now : DT) :
    RunResult DT :=
  add_months z time_now (toI32 value)

/-- `months_ago`: `self.add_months(-(self.value as i32))`.  The negation
is exact here; when `toI32 value = -2^31` the source negation itself
aborts in debug builds and wraps back to `-2^31` in release builds, and
in both cases — as for the exact `2^31` — the call ends in an abort
(target year out of chrono's range), so the `RunResult` agrees. -/
def months_ago {DT : Type} (z : Zone DT) (value : Int) (time_now : DT) :
    RunResult DT :=
  add_months z time_now (-(toI32 value))

/-- `years_from_now`: `self.add_years(self.value as i32)`. -/
def years_from_now {DT : Type} (z : Zone DT) (value : Int) (time_now : DT) :
    RunResult DT :=
  add_years z time_now (toI32 value)

/-- `years_ago`: `self.add_years(-(self.value as i32))` (see the negation
note on `months_ago`). -/
def years_ago {DT : Type} (z : Zone DT) (value : Int) (time_now : DT) :
    RunResult DT :=
  add_years z time_now (-(toI32 value))

/-- `decades_from_now`: `self.add_years(self.value as i32 * 10)`. -/
def decades_from_now {DT : Type} (z : Zone DT) (value : Int) (time_now : DT) :
    RunResult DT :=
  add_years z time_now (toI32 value * 10)

/-- `decades_ago`: `self.add_years(-(self.value as i32) * 10)`. -/
def decades_ago {DT : Type} (z : Zone DT) (value : Int) (time_now : DT) :
    RunResult DT :=
  add_years z time_now (-(toI32 value) * 10)

/-- `centuries_from_now`: `self.add_years(self.value as i32 * 100)`. -/
def centuries_from_now {DT : Type} (z : Zone DT) (value : Int) (time_now : DT) :
    RunResult DT :=
  add_years z time_now (toI32 value * 100)

/-- `centuries_ago`: `self.add_years(-(self.value as i32) * 100)`. -/
def centuries_ago {DT : Type} (z : Zone DT) (value : Int) (time_now : DT) :
    RunResult DT :=
  add_years z time_now (-(toI32 value) * 100)

/-- `millenniums_from_now`: `self.add_years(self.value as i32 * 1000)`. -/
def millenniums_from_now {DT : Type} (z : Zone DT) (value : Int) (time_now : DT) :
    RunResult DT :=
  add_years z time_now (toI32 value * 1000)

/-- `millenniums_ago`: `self.add_years(-(self.value as i32) * 1000)`. -/
def millenniums_ago {DT : Type} (z : Zone DT) (value : Int) (time_now : DT) :
    RunResult DT :=
  add_years z time_now (-(toI32 value) * 1000)

/-- `chrono::Duration::seconds`, measured in seconds. -/
def Duration.seconds (v : Int) : Int := v

/-- `chrono::Duration::minutes`. -/
def Duration.minutes (v : Int) : Int := 60 * v

/-- `chrono::Duration::hours`. -/
def Duration.hours (v : Int) : Int := 3600 * v

/-- `chrono::Duration::days`. -/
def Duration.days (v : Int) : Int := 86400 * v

/-- `offset` from the source: `time.clone() + duration`.  The
`DateTime<F> + Duration` instant arithmetic is external (chrono); it is
abstracted as a capability `add`. -/
def offset {DT : Type} (add : DT → Int → DT) (time : DT) (duration : Int) : DT :=
  add time duration

/-- `offset_neg` from the source: `time.clone() - duration`.  Modelled
from chrono: subtracting a duration is adding its negation on the instant
timeline. -/
def offset_neg {DT : Type} (add : DT → Int → DT) (time : DT) (duration : Int) : DT :=
  add time (-duration)

/-- `seconds_from_now`. -/
def seconds_from_now {DT : Type} (add : DT → Int → DT) (value : Int) (time_now : DT) : DT :=
  offset add time_now (Duration.seconds value)

/-- `seconds_ago`. -/
def seconds_ago {DT : Type} (add : DT → Int → DT) (value : Int) (time_now : DT) : DT :=
  offset_neg add time_now (Duration.seconds value)

/-- `minutes_from_now`. -/
def minutes_from_now {DT : Type} (add : DT → Int → DT) (value : Int) (time_now : DT) : DT :=
  offset add time_now (Duration.minutes value)

/-- `minutes_ago`. -/
def minutes_ago {DT : Type} (add : DT → Int → DT) (value : Int) (time_now : DT) : DT :=
  offset_neg add time_now (Duration.minutes value)

/-- `hours_from_now`. -/
def hours_from_now {DT : Type} (add : DT → Int → DT) (value : Int) (time_now : DT) : DT :=
  offset add time_now (Duration.hours value)

/-- `hours_ago`. -/
def hours_ago {DT : Type} (add : DT → Int → DT) (value : Int) (time_now : DT) : DT :=
  offset_neg add time_now (Duration.hours value)

/-- `days_from_now`. -/
def days_from_now {DT : Type} (add : DT → Int → DT) (value : Int) (time_now : DT) : DT :=
  offset add time_now (Duration.days value)

/-- `days_ago`. -/
def days_ago {DT : Type} (add : DT → Int → DT) (value : Int) (time_now : DT) : DT :=
  offset_neg add time_now (Duration.days value)

/-- `TimeUnits` from the source. -/
inductive TimeUnits where
  | Seconds
  | Minutes
  | Hours
  | Days
  | Months
  | Years
  | Decades
  | Centuries
  | Millenniums
deriving DecidableEq, Repr

/-- `apply_time_unit_forward` from the source: build
`EasyTime::new_with_time(value, time)` and dispatch on the unit.  The
`EasyTime { value, time_now }` record is flattened into the explicit
`value` / `time` arguments of the methods; the fixed-length units return
plain values (their chrono instant arithmetic is the abstract `add`). -/
def apply_time_unit_forward {DT : Type} (z : Zone DT) (add : DT → Int → DT)
    (value : Int) (time_unit : TimeUnits) (time : DT) : RunResult DT :=
  match time_unit with
  | .Seconds => .ok (seconds_from_now add value time)
  | .Minutes => .ok (minutes_from_now add value time)
  | .Hours => .ok (hours_from_now add value time)
  | .Days => .ok (days_from_now add value time)
  | .Months => months_from_now z value time
  | .Years => years_from_now z value time
  | .Decades => decades_from_now z value time
  | .Centuries => centuries_from_now z value time
  | .Millenniums => millenniums_from_now z value time

/-- `apply_time_unit_backward` from the source. -/
def apply_time_unit_backward {DT : Type} (z : Zone DT) (add : DT → Int → DT)
    (value : Int) (time_unit : TimeUnits) (time : DT) : RunResult DT :=
  match time_unit with
  | .Seconds => .ok (seconds_ago add value time)
  | .Minutes => .ok (minutes_ago add value time)
  | .Hours => .ok (hours_ago add value time)
  | .Days => .ok (days_ago add value time)
  | .Months => months_ago z value time
  | .Years => years_ago z value time
  | .Decades => decades_ago z value time
  | .Centuries => centuries_ago z value time
  | .Millenniums => millenniums_ago z value time

/-- Modelled from chrono: `Utc` resolves every naive local date-time
uniquely to itself, and the naive local projection is the identity. -/
def utcZone : Zone NaiveDateTime :=
  { fromLocalDatetime := fun n => .single n
    naiveLocal := fun n => n }

/-- A wall-clock time skipped by a spring-forward transition
(2023-03-08 02:30:00 in the toy zone below). -/
def gapNaive : NaiveDateTime := ⟨2023, 3, 8, 9000⟩

/-- A zone with a spring-forward gap: `gapNaive` corresponds to no real
instant (chrono `LocalResult::None`); every other naive time resolves
uniquely.  This instantiates the `TimeZone` capability the way a real
DST zone does on its skipped hour. -/
def gapZone : Zone NaiveDateTime :=
  { fromLocalDatetime := fun n => if n = gapNaive then .localNone else .single n
    naiveLocal := fun n => n }

/-- The wall-clock time repeated by a fall-back transition in the toy
zone below (2023-11-05 01:30:00). -/
def fallNaive : NaiveDateTime := ⟨2023, 11, 5, 5400⟩

/-- A zone with a fall-back transition: the zoned date-times are a naive
time paired with an occurrence flag (`false` = earlier instant, `true` =
later instant), `fallNaive` occurs twice, and every other naive time
resolves uniquely to its earlier-flagged instant.  This instantiates the
`TimeZone` capability the way a real DST zone does on its repeated
hour. -/
def fallbackZone : Zone (NaiveDateTime × Bool) :=
  { fromLocalDatetime := fun n =>
      if n = fallNaive then .ambiguous (n, false) (n, true) else .single (n, false)
    naiveLocal := fun p => p.1 }

end EasyTime

namespace EasyTime

/-! ## Helper lemmas -/

lemma is_leap_year_iff (year : Int) :
    is_leap_year year = true ↔
      ((year % 4 = 0 ∧ year % 100 ≠ 0) ∨ year % 400 = 0) := by
  simp [is_leap_year]

lemma days_in_month_eq (year month : Int) (h1 : 1 ≤ month) (h2 : month ≤ 12) :
    days_in_month year month =
      some (if month = 2 then
              if (year % 4 = 0 ∧ year % 100 ≠ 0) ∨ year % 400 = 0 then 29 else 28
            else if month = 4 ∨ month = 6 ∨ month = 9 ∨ month = 11 then 30
            else 31) := by
  by_cases hm2 : month = 2
  · subst hm2
    by_cases hl : (year % 4 = 0 ∧ year % 100 ≠ 0) ∨ year % 400 = 0
    · have hb : is_leap_year year = true := (is_leap_year_iff year).mpr hl
      simp only [days_in_month, hb, if_pos hl]
      norm_num
    · have hb : is_leap_year year = false := by
        rcases Bool.eq_false_or_eq_true (is_leap_year year) with ht | hf
        · exact absurd ((is_leap_year_iff year).mp ht) hl
        · exact hf
      simp only [days_in_month, DAYS_IN_MONTH, hb, if_neg hl]
      decide
  · interval_cases month <;>
      first
      | exact absurd rfl hm2
      | simp [days_in_month, DAYS_IN_MONTH]

lemma days_in_month_isSome (year month : Int) (h1 : 1 ≤ month) (h2 : month ≤ 12) :
    ∃ dim, days_in_month year month = some dim := by
  exact ⟨_, days_in_month_eq year month h1 h2⟩

lemma from_ymd_opt_some {year month : Int} {day : Nat} {nd : NaiveDate}
    (h : from_ymd_opt year month day = some nd) :
    nd = ⟨year, month, day⟩ ∧ MIN_YEAR ≤ year ∧ year ≤ MAX_YEAR ∧ 1 ≤ day ∧
      ∃ dim, days_in_month year month = some dim ∧ day ≤ dim := by
  rw [from_ymd_opt] at h
  split at h
  · rename_i dim hdim
    split at h
    · rename_i hc
      cases h
      exact ⟨rfl, hc.1, hc.2.1, hc.2.2.1, dim, hdim, hc.2.2.2⟩
    · exact absurd h (by simp)
  · exact absurd h (by simp)

lemma add_months_utc_ok {n r : NaiveDateTime} {months : Int}
    (h : add_months utcZone n months = .ok r) :
    ∃ dim,
      days_in_month ((n.year * 12 + (n.month - 1) + months) / 12)
          ((n.year * 12 + (n.month - 1) + months) % 12 + 1) = some dim ∧
      r = ⟨(n.year * 12 + (n.month - 1) + months) / 12,
           (n.year * 12 + (n.month - 1) + months) % 12 + 1,
           min n.day dim, n.tod⟩ ∧
      1 ≤ min n.day dim ∧ min n.day dim ≤ dim ∧
      MIN_YEAR ≤ r.year ∧ r.year ≤ MAX_YEAR := by
  simp only [add_months, utcZone] at h
  split at h
  · exact absurd h (by simp)
  · rename_i dim hdim
    split at h
    · exact absurd h (by simp)
    · rename_i nd hnd
      obtain ⟨hnd1, hy1, hy2, hd1, dim2, hdim2, hd2⟩ := from_ymd_opt_some hnd
      rw [hdim] at hdim2
      cases hdim2
      subst hnd1
      simp only [build_datetime_from_naive, NaiveDate.and_time] at h
      cases h
      exact ⟨dim, hdim, rfl, hd1, hd2, hy1, hy2⟩

lemma add_years_utc_ok {n r : NaiveDateTime} {years : Int}
    (h : add_years utcZone n years = .ok r) :
    ∃ dim,
      days_in_month (n.year + years) n.month = some dim ∧
      r = ⟨n.year + years, n.month, min n.day dim, n.tod⟩ ∧
      1 ≤ min n.day dim ∧ min n.day dim ≤ dim ∧
      MIN_YEAR ≤ r.year ∧ r.year ≤ MAX_YEAR := by
  simp only [add_years, utcZone] at h
  split at h
  · exact absurd h (by simp)
  · rename_i dim hdim
    split at h
    · exact absurd h (by simp)
    · rename_i nd hnd
      obtain ⟨hnd1, hy1, hy2, hd1, dim2, hdim2, hd2⟩ := from_ymd_opt_some hnd
      rw [hdim] at hdim2
      cases hdim2
      subst hnd1
      simp only [build_datetime_from_naive, NaiveDate.and_time] at h
      cases h
      exact ⟨dim, hdim, rfl, hd1, hd2, hy1, hy2⟩

end EasyTime

namespace EasyTime

lemma toI32_neg {v : Int} (h : toI32 v ≠ -2147483648) : toI32 (-v) = -(toI32 v) := by
  unfold toI32 at *
  omega

lemma toI32_neg_boundary {v : Int} (h : toI32 v = -2147483648) :
    toI32 (-v) = -2147483648 := by
  unfold toI32 at *
  omega

lemma add_months_huge {DT : Type} (z : Zone DT) (t : DT) (k : Int)
    (hy1 : MIN_YEAR ≤ (z.naiveLocal t).year) (hy2 : (z.naiveLocal t).year ≤ MAX_YEAR)
    (hm1 : 1 ≤ (z.naiveLocal t).month) (hm2 : (z.naiveLocal t).month ≤ 12)
    (hk : 2147483648 ≤ k ∨ k ≤ -2147483648) :
    add_months z t k = .panicked := by
  simp only [MIN_YEAR, MAX_YEAR] at hy1 hy2
  simp only [add_months]
  split
  · rfl
  · split
    · rfl
    · rename_i nd hnd
      obtain ⟨-, hA1, hA2, -, -⟩ := from_ymd_opt_some hnd
      simp only [MIN_YEAR, MAX_YEAR] at hA1 hA2
      exact absurd (And.intro hA1 hA2) (by omega)

lemma add_years_huge {DT : Type} (z : Zone DT) (t : DT) (k : Int)
    (hy1 : MIN_YEAR ≤ (z.naiveLocal t).year) (hy2 : (z.naiveLocal t).year ≤ MAX_YEAR)
    (hk : 2147483648 ≤ k ∨ k ≤ -2147483648) :
    add_years z t k = .panicked := by
  simp only [MIN_YEAR, MAX_YEAR] at hy1 hy2
  simp only [add_years]
  split
  · rfl
  · split
    · rfl
    · rename_i nd hnd
      obtain ⟨-, hA1, hA2, -, -⟩ := from_ymd_opt_some hnd
      simp only [MIN_YEAR, MAX_YEAR] at hA1 hA2
      exact absurd (And.intro hA1 hA2) (by omega)

end EasyTime

namespace EasyTime

/-! ## Claim theorems -/

/-- C1: for every base date-time and signed month delta, `add_months`
computes the target year and month from the zero-based linear index
`totalMonths = year * 12 + (month - 1) + deltaMonths` as
`targetYear = floorDiv(totalMonths, 12)` and
`targetMonth = floorMod(totalMonths, 12) + 1` (Euclidean division, which
the source's `div_euclid` / `rem_euclid` implement), so the resulting
month is always in 1..12 even for negative deltas; in particular
2023-03-15T12:00:00 minus 2 months is 2023-01-15T12:00:00. -/
theorem add_months_linear_month_index :
    (∀ (n : NaiveDateTime) (months : Int) (r : NaiveDateTime),
        add_months utcZone n months = .ok r →
        r.year = (n.year * 12 + (n.month - 1) + months) / 12 ∧
        r.month = (n.year * 12 + (n.month - 1) + months) % 12 + 1 ∧
        1 ≤ r.month ∧ r.month ≤ 12) ∧
    add_months utcZone ⟨2023, 3, 15, 43200⟩ (-2) = .ok ⟨2023, 1, 15, 43200⟩ := by
  refine ⟨?_, by decide⟩
  intro n months r h
  obtain ⟨dim, hdim, hr, h1, h2, hy1, hy2⟩ := add_months_utc_ok h
  subst hr
  refine ⟨rfl, rfl, ?_, ?_⟩
  · show 1 ≤ (n.year * 12 + (n.month - 1) + months) % 12 + 1
    omega
  · show (n.year * 12 + (n.month - 1) + months) % 12 + 1 ≤ 12
    omega

/-- Witness for C1 at the spec's example input. -/
theorem add_months_linear_month_index_witness :
    (2023 : Int) = (2023 * 12 + (3 - 1) + -2) / 12 ∧
    (1 : Int) = (2023 * 12 + (3 - 1) + -2) % 12 + 1 ∧
    (1 : Int) ≤ 1 ∧ (1 : Int) ≤ 12 :=
  add_months_linear_month_index.1 ⟨2023, 3, 15, 43200⟩ (-2) ⟨2023, 1, 15, 43200⟩
    (by decide)

/-- C2: the day-of-month of any date-time returned by `add_months` or
`add_years` is valid for the returned year and month: it equals
`min(original day, daysInMonth(targetYear, targetMonth))`, clamping to
the last valid day; e.g. 2023-01-31 plus one month is 2023-02-28 and
2024-01-31 plus one month is 2024-02-29. -/
theorem result_day_valid_for_result_month :
    (∀ (n : NaiveDateTime) (months : Int) (r : NaiveDateTime),
        add_months utcZone n months = .ok r →
        ∃ dim, days_in_month r.year r.month = some dim ∧
          r.day = min n.day dim ∧ 1 ≤ r.day ∧ r.day ≤ dim) ∧
    (∀ (n : NaiveDateTime) (years : Int) (r : NaiveDateTime),
        add_years utcZone n years = .ok r →
        ∃ dim, days_in_month r.year r.month = some dim ∧
          r.day = min n.day dim ∧ 1 ≤ r.day ∧ r.day ≤ dim) ∧
    add_months utcZone ⟨2023, 1, 31, 43200⟩ 1 = .ok ⟨2023, 2, 28, 43200⟩ ∧
    add_months utcZone ⟨2024, 1, 31, 43200⟩ 1 = .ok ⟨2024, 2, 29, 43200⟩ := by
  refine ⟨?_, ?_, by decide, by decide⟩
  · intro n months r h
    obtain ⟨dim, hdim, hr, h1, h2, hy1, hy2⟩ := add_months_utc_ok h
    subst hr
    exact ⟨dim, hdim, rfl, h1, h2⟩
  · intro n years r h
    obtain ⟨dim, hdim, hr, h1, h2, hy1, hy2⟩ := add_years_utc_ok h
    subst hr
    exact ⟨dim, hdim, rfl, h1, h2⟩

/-- Witness for C2 at the spec's month-end clamp example. -/
theorem result_day_valid_for_result_month_witness :
    ∃ dim, days_in_month 2023 2 = some dim ∧
      28 = min 31 dim ∧ 1 ≤ 28 ∧ 28 ≤ dim :=
  result_day_valid_for_result_month.1 ⟨2023, 1, 31, 43200⟩ 1 ⟨2023, 2, 28, 43200⟩
    (by decide)

/-- C4: `add_years` adds the delta to the year, keeps the month, keeps the
time-of-day, and keeps the day except for clamping it to the length of
the target month; in particular 2024-02-29T12:00:00 plus one year is
2025-02-28T12:00:00 and minus one year is 2023-02-28T12:00:00. -/
theorem add_years_shifts_year_clamps_day :
    (∀ (n : NaiveDateTime) (years : Int) (r : NaiveDateTime),
        add_years utcZone n years = .ok r →
        r.year = n.year + years ∧ r.month = n.month ∧ r.tod = n.tod ∧
        ∃ dim, days_in_month (n.year + years) n.month = some dim ∧
          r.day = min n.day dim) ∧
    add_years utcZone ⟨2024, 2, 29, 43200⟩ 1 = .ok ⟨2025, 2, 28, 43200⟩ ∧
    add_years utcZone ⟨2024, 2, 29, 43200⟩ (-1) = .ok ⟨2023, 2, 28, 43200⟩ := by
  refine ⟨?_, by decide, by decide⟩
  intro n years r h
  obtain ⟨dim, hdim, hr, h1, h2, hy1, hy2⟩ := add_years_utc_ok h
  subst hr
  exact ⟨rfl, rfl, rfl, dim, hdim, rfl⟩

/-- Witness for C4 at the spec's leap-day clamp example. -/
theorem add_years_shifts_year_clamps_day_witness :
    (2025 : Int) = 2024 + 1 ∧ (2 : Int) = 2 ∧ 43200 = 43200 ∧
    ∃ dim, days_in_month (2024 + 1) 2 = some dim ∧ 28 = min 29 dim :=
  add_years_shifts_year_clamps_day.1 ⟨2024, 2, 29, 43200⟩ 1 ⟨2025, 2, 28, 43200⟩
    (by decide)

/-- C6: for every year and month in 1..12, `days_in_month` returns the
standard Gregorian length — 31 for Jan/Mar/May/Jul/Aug/Oct/Dec, 30 for
Apr/Jun/Sep/Nov, and for February 29 exactly when the year satisfies the
leap predicate (divisible by 4 and not by 100, or divisible by 400) and
28 otherwise — and the array index `month - 1` is in bounds. -/
theorem days_in_month_gregorian (year month : Int)
    (h1 : 1 ≤ month) (h2 : month ≤ 12) :
    month.toNat - 1 < DAYS_IN_MONTH.length ∧
    days_in_month year month =
      some (if month = 2 then
              if (year % 4 = 0 ∧ year % 100 ≠ 0) ∨ year % 400 = 0 then 29 else 28
            else if month = 4 ∨ month = 6 ∨ month = 9 ∨ month = 11 then 30
            else 31) := by
  constructor
  · simp only [DAYS_IN_MONTH, List.length]
    omega
  · exact days_in_month_eq year month h1 h2

/-- Witness for C6 at February of a leap year. -/
theorem days_in_month_gregorian_witness :
    (2 : Int).toNat - 1 < DAYS_IN_MONTH.length ∧
    days_in_month 2024 2 =
      some (if (2 : Int) = 2 then
              if ((2024 : Int) % 4 = 0 ∧ (2024 : Int) % 100 ≠ 0) ∨
                  (2024 : Int) % 400 = 0 then 29 else 28
            else if (2 : Int) = 4 ∨ (2 : Int) = 6 ∨ (2 : Int) = 9 ∨
                (2 : Int) = 11 then 30
            else 31) :=
  days_in_month_gregorian 2024 2 (by decide) (by decide)

end EasyTime

namespace EasyTime

/-- C3 counterexample: in a zone with a spring-forward gap, landing on the
skipped wall-clock time makes `add_months` abort the process (the source
runs `panic!("Invalid or non-existent local time.")` inside
`build_datetime_from_naive`); no typed `NonexistentLocalTime` failure
value is ever produced — the return type is the plain date-time, not a
result type. -/
theorem nonexistent_time_aborts_example :
    add_months gapZone ⟨2023, 2, 8, 9000⟩ 1 = .panicked := by decide

/-- C3 amended: when the composed naive local date-time falls in a
spring-forward gap, `build_datetime_from_naive` (shared by `add_months`
and `add_years`) aborts the process with the message
"Invalid or non-existent local time." instead of returning a typed
failure result; it never returns a silently shifted or wrapped time. -/
theorem nonexistent_time_aborts {DT : Type} (z : Zone DT) (naive : NaiveDateTime)
    (h : z.fromLocalDatetime naive = .localNone) :
    build_datetime_from_naive z naive = .panicked ∧
    ∀ dt : DT, build_datetime_from_naive z naive ≠ .ok dt := by
  have hb : build_datetime_from_naive z naive = .panicked := by
    rw [build_datetime_from_naive, h]
  refine ⟨hb, fun dt hok => ?_⟩
  rw [hb] at hok
  exact RunResult.noConfusion hok

/-- Witness for C3's amended theorem at the gap of `gapZone`. -/
theorem nonexistent_time_aborts_witness :
    build_datetime_from_naive gapZone gapNaive = .panicked :=
  (nonexistent_time_aborts gapZone gapNaive (by decide)).1

/-- C5: when the zone resolves the composed naive time ambiguously (a
fall-back transition, chrono ordering (earliest, latest)), the
reconstruction deterministically returns the earlier candidate. -/
theorem ambiguous_resolves_to_earlier {DT : Type} (z : Zone DT)
    (naive : NaiveDateTime) (earlier later : DT)
    (h : z.fromLocalDatetime naive = .ambiguous earlier later) :
    build_datetime_from_naive z naive = .ok earlier := by
  rw [build_datetime_from_naive, h]

/-- Witness for C5 at the repeated hour of `fallbackZone`. -/
theorem ambiguous_resolves_to_earlier_witness :
    build_datetime_from_naive fallbackZone fallNaive = .ok (fallNaive, false) :=
  ambiguous_resolves_to_earlier fallbackZone fallNaive (fallNaive, false)
    (fallNaive, true) (by decide)

/-- C7: adding `12 * k` months equals adding `k` years, for every zone,
base date-time (whose local month is, as chrono guarantees, in 1..12) and
every integer `k`. -/
theorem add_twelve_k_months_eq_add_k_years {DT : Type} (z : Zone DT) (t : DT)
    (k : Int)
    (hm1 : 1 ≤ (z.naiveLocal t).month) (hm2 : (z.naiveLocal t).month ≤ 12) :
    add_months z t (12 * k) = add_years z t k := by
  have hty :
      ((z.naiveLocal t).year * 12 + ((z.naiveLocal t).month - 1) + 12 * k) / 12 =
        (z.naiveLocal t).year + k := by
    omega
  have htm :
      ((z.naiveLocal t).year * 12 + ((z.naiveLocal t).month - 1) + 12 * k) % 12 + 1 =
        (z.naiveLocal t).month := by
    omega
  simp only [add_months, add_years]
  rw [hty, htm]

/-- Witness for C7 with a three-year jump from a clamping date. -/
theorem add_twelve_k_months_eq_add_k_years_witness :
    add_months utcZone ⟨2023, 5, 31, 0⟩ (12 * 3) = add_years utcZone ⟨2023, 5, 31, 0⟩ 3 :=
  add_twelve_k_months_eq_add_k_years utcZone ⟨2023, 5, 31, 0⟩ 3 (by decide) (by decide)

end EasyTime

namespace EasyTime

/-- C8 counterexample: a zero delta is not always an identity.  In the
fall-back zone, the later of the two instants sharing the repeated
wall-clock time `fallNaive` is mapped by `add_months _ _ 0` to the
*earlier* instant, because the operation re-resolves the naive time and
`build_datetime_from_naive` picks the first ambiguous candidate. -/
theorem zero_delta_not_identity_example :
    add_months fallbackZone (fallNaive, true) 0 = .ok (fallNaive, false) ∧
    add_months fallbackZone (fallNaive, true) 0 ≠ .ok (fallNaive, true) := by
  constructor
  · decide
  · decide

/-- C8 amended: a zero delta is an exact identity for both `add_months`
and `add_years` whenever the base date-time is valid (year in chrono's
range, month 1..12, day between 1 and the month's length) and its naive
local time resolves uniquely back to it — in particular always in UTC;
when the naive time is ambiguous and the base is the later candidate,
the operations return the earlier candidate instead. -/
theorem zero_delta_identity {DT : Type} (z : Zone DT) (t : DT) (dim : Nat)
    (hm1 : 1 ≤ (z.naiveLocal t).month) (hm2 : (z.naiveLocal t).month ≤ 12)
    (hy1 : MIN_YEAR ≤ (z.naiveLocal t).year) (hy2 : (z.naiveLocal t).year ≤ MAX_YEAR)
    (hdim : days_in_month (z.naiveLocal t).year (z.naiveLocal t).month = some dim)
    (hd1 : 1 ≤ (z.naiveLocal t).day) (hd2 : (z.naiveLocal t).day ≤ dim)
    (hsingle : z.fromLocalDatetime (z.naiveLocal t) = .single t) :
    add_months z t 0 = .ok t ∧ add_years z t 0 = .ok t := by
  have hty : ((z.naiveLocal t).year * 12 + ((z.naiveLocal t).month - 1) + 0) / 12 =
      (z.naiveLocal t).year := by omega
  have htm : ((z.naiveLocal t).year * 12 + ((z.naiveLocal t).month - 1) + 0) % 12 + 1 =
      (z.naiveLocal t).month := by omega
  have hmin : min (z.naiveLocal t).day dim = (z.naiveLocal t).day :=
    Nat.min_eq_left hd2
  have hfy : from_ymd_opt (z.naiveLocal t).year (z.naiveLocal t).month
      (z.naiveLocal t).day = some ⟨(z.naiveLocal t).year, (z.naiveLocal t).month,
        (z.naiveLocal t).day⟩ := by
    rw [from_ymd_opt, hdim]
    exact if_pos ⟨hy1, hy2, hd1, hd2⟩
  have heta : (NaiveDate.and_time ⟨(z.naiveLocal t).year, (z.naiveLocal t).month,
      (z.naiveLocal t).day⟩ (z.naiveLocal t).tod) = z.naiveLocal t := rfl
  have hbuild : build_datetime_from_naive z (z.naiveLocal t) = .ok t := by
    rw [build_datetime_from_naive, hsingle]
  constructor
  · simp only [add_months]
    rw [hty, htm]
    split
    · rename_i heq
      rw [hdim] at heq
      exact Option.noConfusion heq
    · rename_i dit heq
      rw [hdim] at heq
      cases heq
      split
      · rename_i heq2
        rw [hmin, hfy] at heq2
        exact Option.noConfusion heq2
      · rename_i nd heq2
        rw [hmin, hfy] at heq2
        cases heq2
        rw [heta, hbuild]
  · simp only [add_years, Int.add_zero]
    split
    · rename_i heq
      rw [hdim] at heq
      exact Option.noConfusion heq
    · rename_i dit heq
      rw [hdim] at heq
      cases heq
      split
      · rename_i heq2
        rw [hmin, hfy] at heq2
        exact Option.noConfusion heq2
      · rename_i nd heq2
        rw [hmin, hfy] at heq2
        cases heq2
        rw [heta, hbuild]

/-- Witness for C8's amended theorem in UTC. -/
theorem zero_delta_identity_witness :
    add_months utcZone ⟨2023, 3, 15, 43200⟩ 0 = .ok ⟨2023, 3, 15, 43200⟩ ∧
    add_years utcZone ⟨2023, 3, 15, 43200⟩ 0 = .ok ⟨2023, 3, 15, 43200⟩ :=
  zero_delta_identity utcZone ⟨2023, 3, 15, 43200⟩ 31 (by decide) (by decide)
    (by decide) (by decide) (by decide) (by decide) (by decide) (by decide)

/-- C9 counterexample: `months_from_now` silently truncates its 64-bit
value through `value as i32`: a delta of 2^32 months behaves as a delta
of 0 — the result is the unchanged base date-time instead of a shift of
2^32 months or an explicit failure. -/
theorem months_delta_truncated_example :
    months_from_now utcZone 4294967296 ⟨2023, 3, 15, 43200⟩ =
      .ok ⟨2023, 3, 15, 43200⟩ := by decide

/-- C9 amended: `months_from_now` truncates its signed 64-bit value to 32
bits (two's-complement, the `as i32` cast), so the intermediate
arithmetic is not 64-bit-wide and deltas congruent modulo 2^32 behave
identically; magnitudes are wrapped, not surfaced as explicit overflow
failures (out-of-range targets abort via `from_ymd_opt`). -/
theorem months_delta_truncated {DT : Type} (z : Zone DT) (value : Int) (t : DT) :
    months_from_now z (value + 4294967296) t = months_from_now z value t := by
  have h : toI32 (value + 4294967296) = toI32 value := by
    unfold toI32
    omega
  rw [months_from_now, months_from_now, h]

/-- C10: every backward (`*_ago`) operation equals the corresponding
forward (`*_from_now`) operation invoked with the negated value, for any
zone whose local projection satisfies chrono's field guarantees (year in
range, month 1..12), any instant-arithmetic capability, any value, any
unit and any base time. -/
theorem backward_eq_forward_of_neg {DT : Type} (z : Zone DT) (add : DT → Int → DT)
    (value : Int) (time_unit : TimeUnits) (time : DT)
    (hy1 : MIN_YEAR ≤ (z.naiveLocal time).year)
    (hy2 : (z.naiveLocal time).year ≤ MAX_YEAR)
    (hm1 : 1 ≤ (z.naiveLocal time).month) (hm2 : (z.naiveLocal time).month ≤ 12) :
    apply_time_unit_backward z add value time_unit time =
      apply_time_unit_forward z add (-value) time_unit time := by
  have hcase : toI32 (-value) = -(toI32 value) ∨
      (toI32 value = -2147483648 ∧ toI32 (-value) = -2147483648) := by
    by_cases h : toI32 value = -2147483648
    · exact Or.inr ⟨h, toI32_neg_boundary h⟩
    · exact Or.inl (toI32_neg h)
  cases time_unit with
  | Seconds =>
    simp only [apply_time_unit_backward, apply_time_unit_forward, seconds_ago,
      seconds_from_now, offset, offset_neg, Duration.seconds]
  | Minutes =>
    simp only [apply_time_unit_backward, apply_time_unit_forward, minutes_ago,
      minutes_from_now, offset, offset_neg, Duration.minutes, Int.mul_neg]
  | Hours =>
    simp only [apply_time_unit_backward, apply_time_unit_forward, hours_ago,
      hours_from_now, offset, offset_neg, Duration.hours, Int.mul_neg]
  | Days =>
    simp only [apply_time_unit_backward, apply_time_unit_forward, days_ago,
      days_from_now, offset, offset_neg, Duration.days, Int.mul_neg]
  | Months =>
    simp only [apply_time_unit_backward, apply_time_unit_forward, months_ago,
      months_from_now]
    rcases hcase with h | ⟨h1, h2⟩
    · rw [h]
    · rw [h1, h2]
      rw [add_months_huge z time (-(-2147483648)) hy1 hy2 hm1 hm2 (by norm_num),
        add_months_huge z time (-2147483648) hy1 hy2 hm1 hm2 (by norm_num)]
  | Years =>
    simp only [apply_time_unit_backward, apply_time_unit_forward, years_ago,
      years_from_now]
    rcases hcase with h | ⟨h1, h2⟩
    · rw [h]
    · rw [h1, h2]
      rw [add_years_huge z time (-(-2147483648)) hy1 hy2 (by norm_num),
        add_years_huge z time (-2147483648) hy1 hy2 (by norm_num)]
  | Decades =>
    simp only [apply_time_unit_backward, apply_time_unit_forward, decades_ago,
      decades_from_now]
    rcases hcase with h | ⟨h1, h2⟩
    · rw [h]
    · rw [h1, h2]
      rw [add_years_huge z time (-(-2147483648) * 10) hy1 hy2 (by norm_num),
        add_years_huge z time (-2147483648 * 10) hy1 hy2 (by norm_num)]
  | Centuries =>
    simp only [apply_time_unit_backward, apply_time_unit_forward, centuries_ago,
      centuries_from_now]
    rcases hcase with h | ⟨h1, h2⟩
    · rw [h]
    · rw [h1, h2]
      rw [add_years_huge z time (-(-2147483648) * 100) hy1 hy2 (by norm_num),
        add_years_huge z time (-2147483648 * 100) hy1 hy2 (by norm_num)]
  | Millenniums =>
    simp only [apply_time_unit_backward, apply_time_unit_forward, millenniums_ago,
      millenniums_from_now]
    rcases hcase with h | ⟨h1, h2⟩
    · rw [h]
    · rw [h1, h2]
      rw [add_years_huge z time (-(-2147483648) * 1000) hy1 hy2 (by norm_num),
        add_years_huge z time (-2147483648 * 1000) hy1 hy2 (by norm_num)]

/-- Witness for C10 with the month unit in UTC. -/
theorem backward_eq_forward_of_neg_witness :
    apply_time_unit_backward utcZone (fun t _ => t) 5 .Months ⟨2023, 3, 15, 43200⟩ =
      apply_time_unit_forward utcZone (fun t _ => t) (-5) .Months ⟨2023, 3, 15, 43200⟩ :=
  backward_eq_forward_of_neg utcZone (fun t _ => t) 5 .Months ⟨2023, 3, 15, 43200⟩
    (by decide) (by decide) (by decide) (by decide)

end EasyTime
